import Mathlib

/-!
Shallow embedding of the OffChain token-ranking service
(`src/apps/OffChain/src/index.ts`, the active code after the commented
header): score fusion, the redis-backed Score Store, the module-level
ranking cache, and the scheduled social-refresh cycles.

Numbers are modelled as exact rationals (`ℚ`); JS `Math.round` is
`⌊x + 1/2⌋`; JS falsy-defaulting (`x || d`) is modelled explicitly.
The redis store is an association list whose order models the (otherwise
unspecified) enumeration order of `KEYS '0x*'`; `SystemState.reachable`
models whether redis commands succeed or reject.  JS `Array.prototype.sort`
is required to be a stable sort consistent with the comparator, which on a
list is the unique stable sorted permutation, realised here by
`List.insertionSort`.
-/

namespace OffChain

/-- JS `Math.round x` for finite doubles: `⌊x + 1/2⌋` (half towards +∞). -/
def jsRound (q : ℚ) : ℚ := ((q + 1/2).floor : ℤ)

/-- JS `x || d` where `x` is a possibly-absent numeric field:
absent and `0` are falsy. -/
def jsOrNum (x : Option ℚ) (d : ℚ) : ℚ :=
  match x with
  | some v => if v = 0 then d else v
  | none => d

/-- JS `x || d` where `x` is a possibly-absent string field:
absent and `""` are falsy. -/
def jsOrStr (x : Option String) (d : String) : String :=
  match x with
  | some s => if s = "" then d else s
  | none => d

/-- JS `s || d` on a present string: `""` is falsy. -/
def strOr (s d : String) : String := if s = "" then d else s

/-- JS `l.slice(start, end)` for non-negative bounds; `none` is `Infinity`
(used by the LOW-tier cycle `updateTokensByRankRange(100, Infinity)`). -/
def jsSlice (l : List α) (start : ℕ) (stop : Option ℕ) : List α :=
  match stop with
  | none => l.drop start
  | some e => (l.take e).drop start

/-- `AnalyzedToken` as produced by the social aggregation collaborator and
consumed by `calculateSocialScore` / `updateTokenSocialScore`. -/
structure AnalyzedToken where
  tokenName : String
  ticker : Option String
  sentiment : String
  sentimentScore : ℚ
  trendingScore : ℚ
  signals : List String
  riskLevel : String
  mentionCount : ℚ
  avgEngagement : ℚ
  keyPhrases : List String
  recommendation : String
  confidence : ℚ
  reasoning : String
deriving DecidableEq

/-- The `socialAnalysis` sub-object persisted by `updateTokenSocialScore`;
`lastUpdated` is the write time (`new Date().toISOString()`). -/
structure SocialInfo where
  sentiment : String
  sentimentScore : ℚ
  mentionCount : ℚ
  riskLevel : String
  recommendation : String
  confidence : ℚ
  lastUpdated : ℤ
deriving DecidableEq

/-- A token record as stored (JSON) in redis.  Fields the code reads with
falsy defaults are `Option`s; note the lower-case `trendingscore` key
holding the on-chain score. -/
structure TokenData where
  address : String
  name : Option String
  symbol : Option String
  trendingscore : Option ℚ
  socialScore : Option ℚ
  finalScore : Option ℚ
  socialAnalysis : Option SocialInfo
deriving DecidableEq

/-- An entry of the ranked order built by `getTokenAddressesSorted`. -/
structure RankEntry where
  address : String
  name : String
  symbol : String
  finalScore : ℚ
deriving DecidableEq

/-- The mutable state of the service: the redis store (association list in
`KEYS` enumeration order), reachability of redis, and the module-level
ranking cache (`cachedRankings` / `lastRankingUpdate`); an empty
`cachedRankings` means "no snapshot". -/
structure SystemState where
  store : List (String × TokenData)
  reachable : Bool
  cachedRankings : List RankEntry
  lastRankingUpdate : ℤ
deriving DecidableEq

/-- `client.get key` (a parsed record, or absent). -/
def storeGet (store : List (String × TokenData)) (k : String) : Option TokenData :=
  (store.find? (fun p => p.1 == k)).map (·.2)

/-- `client.set key value`: overwrite in place, or append a new key. -/
def storeSet (store : List (String × TokenData)) (k : String) (v : TokenData) :
    List (String × TokenData) :=
  if store.any (fun p => p.1 == k) then
    store.map (fun p => if p.1 == k then (k, v) else p)
  else store ++ [(k, v)]

/-- Whether `s` starts with `p`, on the character lists. -/
def strHasPrefix (s p : String) : Bool := p.data.isPrefixOf s.data

/-- `client.keys '0x*'` in the store's enumeration order. -/
def storeKeys (store : List (String × TokenData)) : List String :=
  (store.filter (fun p => strHasPrefix p.1 "0x")).map (·.1)

/-- `const RANKING_CACHE_TTL = 2 * 60 * 1000` (milliseconds). -/
def RANKING_CACHE_TTL : ℤ := 2 * 60 * 1000

/-- The risk-penalty lookup `{low:1, medium:0.8, high:0.5, extreme:0.2}[riskLevel] || 0.8`
inside `calculateSocialScore`. -/
def riskPenalty (riskLevel : String) : ℚ :=
  if riskLevel = "low" then 1
  else if riskLevel = "medium" then 8/10
  else if riskLevel = "high" then 5/10
  else if riskLevel = "extreme" then 2/10
  else 8/10

/-- `calculateSocialScore` (index.ts:73-99): weighted base score times risk
penalty, rounded, clamped into `[0,100]` via `Math.max(0, Math.min(100, ·))`. -/
def calculateSocialScore (t : AnalyzedToken) : ℚ :=
  max 0 (min 100 (jsRound
    ((t.trendingScore * (3/10)
      + (t.sentimentScore + 1) * 50 * (25/100)
      + min t.mentionCount 100 * (2/10)
      + min (t.avgEngagement / 10) 100 * (15/100)
      + t.confidence * 100 * (1/10)) * riskPenalty t.riskLevel)))

/-- `finalScore = Math.round(onChainScore * 0.6 + socialScore * 0.4)` with
`onChainScore = tokenData.trendingscore || 0` (index.ts:146-148). -/
def fuseFinalScore (td : TokenData) (s : ℚ) : ℚ :=
  jsRound (jsOrNum td.trendingscore 0 * (6/10) + s * (4/10))

/-- The updated record written by `updateTokenSocialScore`
(`{...tokenData, socialScore, finalScore, socialAnalysis: {...}}`). -/
def fusedRecord (td : TokenData) (now : ℤ) (s : ℚ) (sa : AnalyzedToken) : TokenData :=
  { td with
    socialScore := some s
    finalScore := some (fuseFinalScore td s)
    socialAnalysis := some
      { sentiment := sa.sentiment
        sentimentScore := sa.sentimentScore
        mentionCount := sa.mentionCount
        riskLevel := sa.riskLevel
        recommendation := sa.recommendation
        confidence := sa.confidence
        lastUpdated := now } }

/-- `updateTokenSocialScore` (index.ts:136-170).  Returns the new state and
the list of `client.set` writes performed.  A missing record returns early;
an unreachable store makes `client.get` reject, caught by the surrounding
`try` — both are complete no-ops.  On success: one single `set` of the fused
record, then `cachedRankings = []`. -/
def updateTokenSocialScore (st : SystemState) (now : ℤ) (address : String)
    (socialScore : ℚ) (sa : AnalyzedToken) : SystemState × List (String × TokenData) :=
  if st.reachable then
    match storeGet st.store address with
    | none => (st, [])
    | some td =>
      let upd := fusedRecord td now socialScore sa
      ({ st with store := storeSet st.store address upd, cachedRankings := [] },
       [(address, upd)])
  else (st, [])

/-- The ranked entry built from a stored record inside
`getTokenAddressesSorted` (index.ts:116-121), including the falsy-chained
ranking key `v.finalScore || v.trendingscore || 0`. -/
def toRankEntry (td : TokenData) : RankEntry :=
  { address := td.address
    name := jsOrStr td.name ""
    symbol := jsOrStr td.symbol ""
    finalScore := jsOrNum td.finalScore (jsOrNum td.trendingscore 0) }

/-- The list built by the rebuild path of `getTokenAddressesSorted`:
`mGet` all `0x*` keys, map to entries, stable-sort descending by
`finalScore` (`tokens.sort((a, b) => b.finalScore - a.finalScore)`). -/
def rebuiltList (store : List (String × TokenData)) : List RankEntry :=
  List.insertionSort (fun a b => b.finalScore ≤ a.finalScore)
    (((storeKeys store).filterMap (storeGet store)).map toRankEntry)

/-- The cache-miss path of `getTokenAddressesSorted` (index.ts:109-129):
empty key set returns `[]` without touching the cache; otherwise the sorted
list is returned and replaces the cache. -/
def rebuildRankings (st : SystemState) (now : ℤ) : List RankEntry × SystemState :=
  if storeKeys st.store = [] then ([], st)
  else (rebuiltList st.store,
        { st with cachedRankings := rebuiltList st.store, lastRankingUpdate := now })

/-- `getTokenAddressesSorted` (index.ts:101-134): serve the cached rankings
when non-empty and younger than the TTL; otherwise rebuild from the store;
if the store is unreachable the rebuild throws and the `catch` returns `[]`. -/
def getTokenAddressesSorted (st : SystemState) (now : ℤ) :
    List RankEntry × SystemState :=
  if st.cachedRankings ≠ [] ∧ now - st.lastRankingUpdate < RANKING_CACHE_TTL then
    (st.cachedRankings, st)
  else if st.reachable then rebuildRankings st now
  else ([], st)

/-- The ticker chosen for a ranked token in `updateTokensByRankRange`:
`token.symbol || token.name || ''`. -/
def cycleTicker (t : RankEntry) : String := strOr t.symbol (strOr t.name "")

/-- `tokensToUpdate.map(t => t.symbol || t.name || '').filter(Boolean)`. -/
def cycleTickers (l : List RankEntry) : List String :=
  (l.map cycleTicker).filter (· ≠ "")

/-- The lookup key for a ranked token in the analysis map:
`(token.symbol || token.name || '').toLowerCase()`. -/
def cycleKey (t : RankEntry) : String := (cycleTicker t).toLower

/-- The `Map` built from `analysis.topTrending` with
`key = (token.ticker || token.tokenName).toLowerCase()`. -/
def buildAnalysisMap (l : List AnalyzedToken) : List (String × AnalyzedToken) :=
  l.map (fun a => ((jsOrStr a.ticker a.tokenName).toLower, a))

/-- `Map.get`: `Map.set` overwrites, so the last binding for a key wins. -/
def mapGet (m : List (String × AnalyzedToken)) (k : String) : Option AnalyzedToken :=
  (m.reverse.find? (fun p => p.1 == k)).map (·.2)

/-- The fallback `finalAnalysis` object built when a token's key is absent
from the analysis map (index.ts:203-216). -/
def defaultAnalysis (t : RankEntry) : AnalyzedToken :=
  { tokenName := strOr t.name (strOr t.symbol "Unknown")
    ticker := none
    sentiment := "neutral"
    sentimentScore := 0
    trendingScore := 0
    signals := []
    riskLevel := "medium"
    mentionCount := 0
    avgEngagement := 0
    keyPhrases := []
    recommendation := "hold"
    confidence := 0
    reasoning := "No recent social media mentions" }

/-- The social score and analysis passed to `updateTokenSocialScore` for one
ranked token: the computed score for a hit, the fixed `30` plus the default
analysis for a miss (index.ts:199-219). -/
def scoreAndAnalysis (m : List (String × AnalyzedToken)) (t : RankEntry) :
    ℚ × AnalyzedToken :=
  match mapGet m (cycleKey t) with
  | some a => (calculateSocialScore a, a)
  | none => (30, defaultAnalysis t)

/-- One iteration of the `Promise.all(tokensToUpdate.map(...))` loop,
threading the state and recording the `(address, socialScore)` of each
`updateTokenSocialScore` call. -/
def processToken (now : ℤ) (m : List (String × AnalyzedToken))
    (acc : SystemState × List (String × ℚ)) (t : RankEntry) :
    SystemState × List (String × ℚ) :=
  ((updateTokenSocialScore acc.1 now t.address (scoreAndAnalysis m t).1
      (scoreAndAnalysis m t).2).1,
   acc.2 ++ [(t.address, (scoreAndAnalysis m t).1)])

/-- `updateTokensByRankRange` (index.ts:172-226).  The external fetch and
aggregation are modelled by their successful result `topTrending`
(the §6 collaborator contract).  Returns the new state and the
`(address, socialScore)` pairs of the refresh calls made. -/
def updateTokensByRankRange (st : SystemState) (now : ℤ) (startRank : ℕ)
    (endRank : Option ℕ) (topTrending : List AnalyzedToken) :
    SystemState × List (String × ℚ) :=
  if jsSlice (getTokenAddressesSorted st now).1 startRank endRank = [] then
    ((getTokenAddressesSorted st now).2, [])
  else if cycleTickers (jsSlice (getTokenAddressesSorted st now).1 startRank endRank) = [] then
    ((getTokenAddressesSorted st now).2, [])
  else
    (jsSlice (getTokenAddressesSorted st now).1 startRank endRank).foldl
      (processToken now (buildAnalysisMap topTrending))
      ((getTokenAddressesSorted st now).2, [])

/-- The staggered schedule installed by `startScheduledUpdates`
(index.ts:228-233): `(interval in ms, startRank, endRank)`, with `none`
for `Infinity`. -/
def schedule : List (ℤ × ℕ × Option ℕ) :=
  [(5 * 60 * 1000, 0, some 20),
   (20 * 60 * 1000, 20, some 100),
   (30 * 60 * 1000, 100, none)]

/-- `client.mGet keys`: rejects when the store is unreachable. -/
def mGet (st : SystemState) (keys : List String) : Option (List (Option TokenData)) :=
  if st.reachable then some (keys.map (storeGet st.store)) else none

/-- The `/top-tokens` handler (index.ts:291-302): ranked read, then a direct
`mGet` of the top addresses; any rejection is caught and answered with the
500-error body. -/
def getTopTokens (st : SystemState) (now : ℤ) (limit : ℕ) :
    Except String (List (TokenData × ℕ)) × SystemState :=
  match mGet (getTokenAddressesSorted st now).2
      (((getTokenAddressesSorted st now).1.take limit).map RankEntry.address) with
  | some values =>
    (Except.ok ((values.filterMap id).enum.map (fun p => (p.2, p.1 + 1))),
     (getTokenAddressesSorted st now).2)
  | none => (Except.error "Failed to fetch top tokens", (getTokenAddressesSorted st now).2)

/-!
Claim-side definitions (transcribed from the specification's wording, for
refinement comparisons against the code-side definitions above).
-/

/-- The social sub-score exactly as the specification words it:
`clamp(0,100, round(riskPenalty * (trendingScore*0.3 + (sentimentScore+1)*50*0.25
+ min(mentionCount,100)*0.2 + min(avgEngagement/10,100)*0.15 + confidence*100*0.1)))`
with `riskPenalty ∈ {low:1.0, medium:0.8, high:0.5, extreme:0.2}` and `0.8` for
any unrecognized label. -/
def socialScoreClaim (t : AnalyzedToken) : ℚ :=
  max 0 (min 100 (jsRound
    ((if t.riskLevel = "low" then (1 : ℚ)
      else if t.riskLevel = "medium" then 8/10
      else if t.riskLevel = "high" then 5/10
      else if t.riskLevel = "extreme" then 2/10
      else 8/10)
     * (t.trendingScore * (3/10)
        + (t.sentimentScore + 1) * 50 * (25/100)
        + min t.mentionCount 100 * (2/10)
        + min (t.avgEngagement / 10) 100 * (15/100)
        + t.confidence * 100 * (1/10)))))

/-- The trailing part of the claimed ranking key: the stored `trendingscore`
if present and non-zero, otherwise `0`. -/
def trendKeyClaim (td : TokenData) : ℚ :=
  match td.trendingscore with
  | some g => if g ≠ 0 then g else 0
  | none => 0

/-- The ranking key as the claim words it: the stored `finalScore` if present
and non-zero, otherwise the stored `trendingscore` if present and non-zero,
otherwise `0`. -/
def rankingKeyClaim (td : TokenData) : ℚ :=
  match td.finalScore with
  | some f => if f ≠ 0 then f else trendKeyClaim td
  | none => trendKeyClaim td

unseal Rat.mul Rat.inv Rat.add Rat.sub

/-!  Helper lemmas.  -/

theorem find_after_overwrite (k : String) (v : TokenData)
    (l : List (String × TokenData)) (h : l.any (fun p => p.1 == k) = true) :
    (l.map (fun p => if p.1 == k then (k, v) else p)).find? (fun p => p.1 == k)
      = some (k, v) := by
  induction l with
  | nil => simp at h
  | cons p l ih =>
    by_cases hp : (p.1 == k) = true
    · simp [hp, List.find?]
    · simp only [List.any_cons, Bool.or_eq_true] at h
      have h' := h.resolve_left (by simp [hp])
      simp only [List.map_cons, List.find?_cons, Bool.not_eq_true] at *
      rw [if_neg (by simp [hp])]
      simpa [hp] using ih h'

theorem find_after_append (k : String) (v : TokenData)
    (l : List (String × TokenData)) (h : l.any (fun p => p.1 == k) = false) :
    (l ++ [(k, v)]).find? (fun p => p.1 == k) = some (k, v) := by
  induction l with
  | nil => simp [List.find?]
  | cons p l ih =>
    simp only [List.any_cons, Bool.or_eq_false_iff] at h
    simp only [List.cons_append, List.find?_cons]
    rw [h.1]
    exact ih h.2

theorem storeGet_storeSet_self (l : List (String × TokenData)) (k : String)
    (v : TokenData) : storeGet (storeSet l k v) k = some v := by
  unfold storeGet storeSet
  cases hb : l.any (fun p => p.1 == k) with
  | true => rw [if_pos rfl, find_after_overwrite k v l hb]; rfl
  | false => rw [if_neg Bool.false_ne_true, find_after_append k v l hb]; rfl

theorem foldl_processToken_writes (now : ℤ) (m : List (String × AnalyzedToken)) :
    ∀ (l : List RankEntry) (st : SystemState) (ws : List (String × ℚ)),
      (l.foldl (processToken now m) (st, ws)).2
        = ws ++ l.map (fun t => (t.address, (scoreAndAnalysis m t).1)) := by
  intro l
  induction l with
  | nil => intro st ws; simp
  | cons t l ih =>
    intro st ws
    simp only [List.foldl_cons, processToken, List.map_cons]
    rw [ih]
    simp

/-- The ranked-order component of `rebuildRankings` depends only on the store. -/
theorem rebuildRankings_fst (st : SystemState) (now : ℤ) :
    (rebuildRankings st now).1
      = if storeKeys st.store = [] then [] else rebuiltList st.store := by
  unfold rebuildRankings
  split <;> rfl

/-!  Concrete fixtures used by witnesses and counterexamples.  -/

/-- A stored record with a given address and final score. -/
def exTd (a : String) (f : ℚ) : TokenData :=
  { address := a, name := none, symbol := some "T", trendingscore := some 10,
    socialScore := none, finalScore := some f, socialAnalysis := none }

/-- Store enumerating "0xC" (50), "0xB" (80), "0xA" (80) in that order,
with an empty cache. -/
def exSt4 : SystemState :=
  { store := [("0xC", exTd "0xC" 50), ("0xB", exTd "0xB" 80), ("0xA", exTd "0xA" 80)],
    reachable := true, cachedRankings := [], lastRankingUpdate := 0 }

/-- A previously cached ranking entry. -/
def exOldEntry : RankEntry := { address := "0xOld", name := "", symbol := "T", finalScore := 42 }

/-- Reachable store holding one record, with a cached snapshot built at time 0. -/
def exSt5 : SystemState :=
  { store := [("0xB", exTd "0xB" 80)], reachable := true,
    cachedRankings := [exOldEntry], lastRankingUpdate := 0 }

/-- Unreachable store with a stale non-empty previous snapshot. -/
def exSt6 : SystemState :=
  { store := [], reachable := false,
    cachedRankings := [exOldEntry], lastRankingUpdate := 0 }

/-- A concrete analyzed-token payload for update calls. -/
def exSA : AnalyzedToken :=
  { tokenName := "Token", ticker := none, sentiment := "neutral",
    sentimentScore := 0, trendingScore := 0, signals := [], riskLevel := "medium",
    mentionCount := 0, avgEngagement := 0, keyPhrases := [], recommendation := "hold",
    confidence := 0, reasoning := "" }

/-- The scenario-1/2 record: on-chain score 66, no social data yet. -/
def exTd2 : TokenData :=
  { address := "0xT", name := none, symbol := none, trendingscore := some 66,
    socialScore := none, finalScore := some 66, socialAnalysis := none }

/-- Reachable store holding the scenario record, with a non-empty cache. -/
def exSt2 : SystemState :=
  { store := [("0xT", exTd2)], reachable := true,
    cachedRankings := [exOldEntry], lastRankingUpdate := 0 }

/-- Same store as `exSt4` but a different cache and timestamp. -/
def exSt4b : SystemState :=
  { store := exSt4.store, reachable := true,
    cachedRankings := [exOldEntry], lastRankingUpdate := 99 }

/-- Reachable one-record store used for the missing-address no-op witness. -/
def exSt9 : SystemState :=
  { store := [("0xT", exTd2)], reachable := true,
    cachedRankings := [], lastRankingUpdate := 0 }

/-- A social-analysis sub-object persisted at time 1000000. -/
def exSI7 : SocialInfo :=
  { sentiment := "neutral", sentimentScore := 0, mentionCount := 5,
    riskLevel := "medium", recommendation := "hold", confidence := 1/2,
    lastUpdated := 1000000 }

/-- A rank-0 record whose social data was refreshed at time 1000000. -/
def exTd7 : TokenData :=
  { address := "0xa", name := none, symbol := some "DOGE", trendingscore := some 50,
    socialScore := some 55, finalScore := some 57, socialAnalysis := some exSI7 }

def exSt7 : SystemState :=
  { store := [("0xa", exTd7)], reachable := true,
    cachedRankings := [], lastRankingUpdate := 0 }

/-- A rank-0 record with a stored social score of 90. -/
def exTd8 : TokenData :=
  { address := "0xa", name := none, symbol := some "DOGE", trendingscore := some 50,
    socialScore := some 90, finalScore := some 66, socialAnalysis := none }

def exSt8 : SystemState :=
  { store := [("0xa", exTd8)], reachable := true,
    cachedRankings := [], lastRankingUpdate := 0 }

/-!  Claim theorems.  -/

/-- C1: for every social analysis input, the computed social sub-score equals
`clamp(0,100, round(riskPenalty * (trendingScore*0.3 + (sentimentScore+1)*50*0.25
+ min(mentionCount,100)*0.2 + min(avgEngagement/10,100)*0.15 + confidence*100*0.1)))`
with risk penalty 1.0/0.8/0.5/0.2 for low/medium/high/extreme and 0.8 for any
unrecognized label. -/
theorem calculateSocialScore_meets_claim (t : AnalyzedToken) :
    calculateSocialScore t = socialScoreClaim t := by
  unfold calculateSocialScore socialScoreClaim riskPenalty
  rw [mul_comm]

/-- C10: the ranking key built by the ranked-order read for each stored record
is its `finalScore` if present and non-zero, otherwise its `trendingscore` if
present and non-zero, otherwise `0`. -/
theorem rankingKey_meets_claim (td : TokenData) :
    (toRankEntry td).finalScore = rankingKeyClaim td := by
  rcases td with ⟨a, n, s, ts, ss, fs, sa⟩
  rcases fs with _ | f <;> rcases ts with _ | g <;>
    simp only [toRankEntry, rankingKeyClaim, trendKeyClaim, jsOrNum] <;>
    split_ifs <;> simp_all

/-- C2: every social-score write on an existing record persists
`finalScore = round(onChainScore * 0.6 + socialScore * 0.4)` where
`onChainScore` is the stored `trendingscore` (defaulted to 0). -/
theorem updateTokenSocialScore_fusion (st : SystemState) (now : ℤ)
    (addr : String) (s : ℚ) (sa : AnalyzedToken) (td : TokenData)
    (h1 : st.reachable = true) (h2 : storeGet st.store addr = some td) :
    (updateTokenSocialScore st now addr s sa).2 = [(addr, fusedRecord td now s sa)]
    ∧ (fusedRecord td now s sa).finalScore
        = some (jsRound (jsOrNum td.trendingscore 0 * (6/10) + s * (4/10))) := by
  constructor
  · unfold updateTokenSocialScore
    rw [h1]
    simp [h2]
  · rfl

/-- C3: a successful social-score update performs one single store write whose
record carries the new `socialScore` together with the recomputed `finalScore`,
clears the cached rankings, and thereby forces the next ranked read (at any
time) down the rebuild path. -/
theorem updateTokenSocialScore_atomic (st : SystemState) (now : ℤ)
    (addr : String) (s : ℚ) (sa : AnalyzedToken) (td : TokenData)
    (h1 : st.reachable = true) (h2 : storeGet st.store addr = some td) :
    (updateTokenSocialScore st now addr s sa).2 = [(addr, fusedRecord td now s sa)]
    ∧ (fusedRecord td now s sa).socialScore = some s
    ∧ (fusedRecord td now s sa).finalScore = some (fuseFinalScore td s)
    ∧ ((updateTokenSocialScore st now addr s sa).1).cachedRankings = []
    ∧ ∀ now2 : ℤ,
        getTokenAddressesSorted ((updateTokenSocialScore st now addr s sa).1) now2
          = rebuildRankings ((updateTokenSocialScore st now addr s sa).1) now2 := by
  have hA : (updateTokenSocialScore st now addr s sa).2
      = [(addr, fusedRecord td now s sa)] := by
    unfold updateTokenSocialScore
    rw [h1]
    simp [h2]
  have hB : ((updateTokenSocialScore st now addr s sa).1).cachedRankings = [] := by
    unfold updateTokenSocialScore
    rw [h1]
    simp [h2]
  have hC : ((updateTokenSocialScore st now addr s sa).1).reachable = st.reachable := by
    unfold updateTokenSocialScore
    rw [h1]
    simp [h2]
  refine ⟨hA, rfl, rfl, hB, ?_⟩
  intro now2
  unfold getTokenAddressesSorted
  simp [hB, hC, h1]

/-- C9: a social-score update addressed at a record absent from the store is a
complete no-op: state unchanged (store, cache, timestamps) and no writes. -/
theorem updateTokenSocialScore_missing_noop (st : SystemState) (now : ℤ)
    (addr : String) (s : ℚ) (sa : AnalyzedToken)
    (h : storeGet st.store addr = none) :
    updateTokenSocialScore st now addr s sa = (st, []) := by
  unfold updateTokenSocialScore
  cases hr : st.reachable <;> simp [h]

/-- When the store is unreachable no ranked read can mutate the state. -/
theorem getTokenAddressesSorted_state_unreachable (st : SystemState) (now : ℤ)
    (h : st.reachable = false) : (getTokenAddressesSorted st now).2 = st := by
  unfold getTokenAddressesSorted
  split
  · rfl
  · rw [h]
    simp

/-- C4 (amended): the rebuilt ranked order is sorted descending by
`finalScore`; it is a function of the store contents alone (so rebuilding
twice from an unchanged store yields the identical order); ties between equal
`finalScore`s keep the store's enumeration order rather than ascending
address: records 50/80/80 on addresses "0xC","0xB","0xA" enumerated in that
order rank as ["0xB","0xA","0xC"]. -/
theorem ranked_order_sorted_and_deterministic :
    (∀ (st : SystemState) (now : ℤ),
      List.Sorted (fun a b : RankEntry => b.finalScore ≤ a.finalScore)
        (rebuildRankings st now).1)
    ∧ (∀ (st st' : SystemState) (now now' : ℤ), st.store = st'.store →
        (rebuildRankings st now).1 = (rebuildRankings st' now').1)
    ∧ (getTokenAddressesSorted exSt4 0).1.map RankEntry.address
        = ["0xB", "0xA", "0xC"] := by
  refine ⟨?_, ?_, by decide⟩
  · intro st now
    rw [rebuildRankings_fst]
    split
    · exact List.sorted_nil
    · haveI : IsTotal RankEntry (fun a b => b.finalScore ≤ a.finalScore) :=
        ⟨fun a b => le_total b.finalScore a.finalScore⟩
      haveI : IsTrans RankEntry (fun a b => b.finalScore ≤ a.finalScore) :=
        ⟨fun _ _ _ h1 h2 => le_trans h2 h1⟩
      exact List.sorted_insertionSort _ _
  · intro st st' now now' h
    rw [rebuildRankings_fst, rebuildRankings_fst, h]

/-- C4 counterexample: with finalScores 50/80/80 stored under enumeration
order "0xC","0xB","0xA", the rebuilt ranked order is ["0xB","0xA","0xC"],
not the ascending-address tie-break ["0xA","0xB","0xC"] the claim requires
(here "0xA" < "0xB" lexicographically). -/
theorem ranked_order_tiebreak_counterexample :
    (getTokenAddressesSorted exSt4 0).1.map RankEntry.address = ["0xB", "0xA", "0xC"]
    ∧ ["0xB", "0xA", "0xC"] ≠ ["0xA", "0xB", "0xC"] := by decide

/-- C5 (amended): a ranked read returns the cached snapshot when it is
non-empty and strictly younger than the 2-minute TTL; when no snapshot
exists or it is at least 2 minutes old, the read takes the rebuild path,
which reads every stored record; the rebuilt order replaces the cache
whenever the store has at least one `0x*` key, while an empty store yields
an empty order leaving the cache untouched. -/
theorem ranked_read_cache_policy (st : SystemState) (now : ℤ)
    (h : st.reachable = true) :
    (st.cachedRankings ≠ [] → now - st.lastRankingUpdate < RANKING_CACHE_TTL →
      getTokenAddressesSorted st now = (st.cachedRankings, st))
    ∧ (st.cachedRankings = [] ∨ RANKING_CACHE_TTL ≤ now - st.lastRankingUpdate →
        getTokenAddressesSorted st now = rebuildRankings st now)
    ∧ (storeKeys st.store = [] → rebuildRankings st now = ([], st))
    ∧ (storeKeys st.store ≠ [] →
        (rebuildRankings st now).2.cachedRankings = (rebuildRankings st now).1
        ∧ (rebuildRankings st now).2.lastRankingUpdate = now) := by
  refine ⟨?_, ?_, ?_, ?_⟩
  · intro h1 h2
    unfold getTokenAddressesSorted
    rw [if_pos ⟨h1, h2⟩]
  · intro h12
    have hc : ¬(st.cachedRankings ≠ [] ∧ now - st.lastRankingUpdate < RANKING_CACHE_TTL) := by
      rcases h12 with h1 | h2
      · exact fun hx => hx.1 h1
      · exact fun hx => absurd hx.2 (not_lt.mpr h2)
    unfold getTokenAddressesSorted
    rw [if_neg hc, h]
    simp
  · intro hk
    unfold rebuildRankings
    rw [if_pos hk]
  · intro hk
    unfold rebuildRankings
    rw [if_neg hk]
    exact ⟨rfl, rfl⟩

/-- C5 counterexample: a non-empty snapshot aged exactly the 2-minute window
(`now - lastRankingUpdate = RANKING_CACHE_TTL`, so "not older than 2 minutes")
is NOT returned: the read rebuilds from the store instead. -/
theorem ranked_read_ttl_boundary_counterexample :
    (120000 : ℤ) - exSt5.lastRankingUpdate = RANKING_CACHE_TTL
    ∧ exSt5.cachedRankings ≠ []
    ∧ (getTokenAddressesSorted exSt5 120000).1 ≠ exSt5.cachedRankings := by decide

/-- C6 (amended): with the store unreachable, a ranked read that cannot be
served from a fresh non-empty snapshot returns the empty order — not the
stale previous snapshot — and never raises; `getTopTokens`, however, performs
a further direct `mGet` against the store and therefore answers with the
500-error body whenever the store is unreachable. -/
theorem unreachable_store_degradation (st : SystemState) (now : ℤ) (limit : ℕ)
    (h : st.reachable = false) :
    (¬(st.cachedRankings ≠ [] ∧ now - st.lastRankingUpdate < RANKING_CACHE_TTL) →
      getTokenAddressesSorted st now = ([], st))
    ∧ (getTopTokens st now limit).1 = Except.error "Failed to fetch top tokens" := by
  constructor
  · intro hc
    unfold getTokenAddressesSorted
    rw [if_neg hc, h]
    simp
  · have h2 : (getTokenAddressesSorted st now).2.reachable = false := by
      rw [getTokenAddressesSorted_state_unreachable st now h]
      exact h
    unfold getTopTokens mGet
    rw [h2]
    simp

/-- C6 counterexample: the store is unreachable, a stale non-empty previous
snapshot exists, and the ranked read returns the empty order instead of that
previous snapshot. -/
theorem unreachable_store_counterexample :
    exSt6.reachable = false
    ∧ exSt6.cachedRankings ≠ []
    ∧ ¬((1000000000 : ℤ) - exSt6.lastRankingUpdate < RANKING_CACHE_TTL)
    ∧ (getTokenAddressesSorted exSt6 1000000000).1 = []
    ∧ (getTokenAddressesSorted exSt6 1000000000).1 ≠ exSt6.cachedRankings := by decide

/-- C2 witness: the stored record with on-chain score 66 receiving social
score 90 persists `finalScore = round(66*0.6 + 90*0.4) = 76` in its single
write. -/
theorem updateTokenSocialScore_fusion_witness :
    (updateTokenSocialScore exSt2 5 "0xT" 90 exSA).2 = [("0xT", fusedRecord exTd2 5 90 exSA)]
    ∧ (fusedRecord exTd2 5 90 exSA).finalScore = some 76 := by
  have h := updateTokenSocialScore_fusion exSt2 5 "0xT" 90 exSA exTd2 rfl (by decide)
  refine ⟨h.1, ?_⟩
  rw [h.2]
  decide

/-- C3 witness: on the concrete state, the update makes its single write,
clears the cache, and the next ranked read takes the rebuild path. -/
theorem updateTokenSocialScore_atomic_witness :
    (updateTokenSocialScore exSt2 5 "0xT" 90 exSA).2 = [("0xT", fusedRecord exTd2 5 90 exSA)]
    ∧ ((updateTokenSocialScore exSt2 5 "0xT" 90 exSA).1).cachedRankings = []
    ∧ getTokenAddressesSorted ((updateTokenSocialScore exSt2 5 "0xT" 90 exSA).1) 7
        = rebuildRankings ((updateTokenSocialScore exSt2 5 "0xT" 90 exSA).1) 7 := by
  have h := updateTokenSocialScore_atomic exSt2 5 "0xT" 90 exSA exTd2 rfl (by decide)
  exact ⟨h.1, h.2.2.2.1, h.2.2.2.2 7⟩

/-- C9 witness: updating an address with no stored record leaves the state
untouched and performs no write. -/
theorem updateTokenSocialScore_missing_noop_witness :
    updateTokenSocialScore exSt9 0 "0xZ" 50 exSA = (exSt9, []) :=
  updateTokenSocialScore_missing_noop exSt9 0 "0xZ" 50 exSA (by decide)

/-- C4 witness: rebuilding from two states with the same store (different
caches and clocks) yields the identical ranked order. -/
theorem ranked_order_deterministic_witness :
    (rebuildRankings exSt4 0).1 = (rebuildRankings exSt4b 5).1 :=
  ranked_order_sorted_and_deterministic.2.1 exSt4 exSt4b 0 5 rfl

/-- C5 witness: the fresh snapshot is served at age 10 ms; at age 120000 ms
the read rebuilds and the rebuilt order replaces the cache. -/
theorem ranked_read_cache_policy_witness :
    getTokenAddressesSorted exSt5 10 = (exSt5.cachedRankings, exSt5)
    ∧ getTokenAddressesSorted exSt5 120000 = rebuildRankings exSt5 120000
    ∧ (rebuildRankings exSt5 120000).2.cachedRankings = (rebuildRankings exSt5 120000).1 := by
  have h1 := ranked_read_cache_policy exSt5 10 rfl
  have h2 := ranked_read_cache_policy exSt5 120000 rfl
  exact ⟨h1.1 (by decide) (by decide), h2.2.1 (Or.inr (by decide)),
         (h2.2.2.2 (by decide)).1⟩

/-- C6 witness: with the unreachable store and a stale snapshot, the ranked
read returns the empty order and the `/top-tokens` handler answers the
500-error body. -/
theorem unreachable_store_degradation_witness :
    getTokenAddressesSorted exSt6 1000000000 = ([], exSt6)
    ∧ (getTopTokens exSt6 1000000000 50).1 = Except.error "Failed to fetch top tokens" := by
  have h := unreachable_store_degradation exSt6 1000000000 50 rfl
  exact ⟨h.1 (by decide), h.2⟩

/-- C7 (amended): the scheduler runs the HIGH window [0,20) every 5 minutes,
MEDIUM [20,100) every 20 minutes and LOW [100,∞) every 30 minutes, and each
cycle refreshes exactly the records of its rank window (when the window
offers at least one non-empty ticker) — with no `socialLastUpdated`
staleness restriction of any kind. -/
theorem refresh_cycle_window (st : SystemState) (now : ℤ) (startRank : ℕ)
    (endRank : Option ℕ) (topTrending : List AnalyzedToken)
    (h : cycleTickers (jsSlice (getTokenAddressesSorted st now).1 startRank endRank) ≠ []) :
    schedule = [(300000, 0, some 20), (1200000, 20, some 100), (1800000, 100, none)]
    ∧ (updateTokensByRankRange st now startRank endRank topTrending).2.map Prod.fst
        = (jsSlice (getTokenAddressesSorted st now).1 startRank endRank).map RankEntry.address := by
  have hs : jsSlice (getTokenAddressesSorted st now).1 startRank endRank ≠ [] := by
    intro hl
    exact h (by simp [cycleTickers, hl])
  constructor
  · decide
  · unfold updateTokensByRankRange
    rw [if_neg hs, if_neg h, foldl_processToken_writes]
    simp [List.map_map, Function.comp]

/-- C7 witness: the HIGH cycle on the concrete store refreshes exactly the
single record of rank 0. -/
theorem refresh_cycle_window_witness :
    (updateTokensByRankRange exSt7 1000000 0 (some 20) []).2.map Prod.fst = ["0xa"] := by
  have h := refresh_cycle_window exSt7 1000000 0 (some 20) [] (by decide)
  rw [h.2]
  decide

/-- C7 counterexample: the rank-0 record's social data was refreshed at the
very instant the HIGH cycle runs (0 ms old, far less than the 5-minute
interval), yet the cycle refreshes it again — there is no staleness filter. -/
theorem refresh_cycle_no_staleness_filter :
    ((storeGet exSt7.store "0xa").map (fun td => td.socialAnalysis.map SocialInfo.lastUpdated))
      = some (some 1000000)
    ∧ (updateTokensByRankRange exSt7 1000000 0 (some 20) []).2 = [("0xa", 30)] := by decide

/-- C8 (amended): a due token whose ticker is absent from the aggregation
result is given the default neutral analysis and the fixed social score 30;
that refresh call is still made, and on an existing record it replaces the
stored `socialScore` with 30 (no error is raised). -/
theorem absent_ticker_default_refresh :
    (∀ (m : List (String × AnalyzedToken)) (t : RankEntry),
        mapGet m (cycleKey t) = none → scoreAndAnalysis m t = (30, defaultAnalysis t))
    ∧ (∀ (st : SystemState) (now : ℤ) (startRank : ℕ) (endRank : Option ℕ)
         (topTrending : List AnalyzedToken) (t : RankEntry),
        cycleTickers (jsSlice (getTokenAddressesSorted st now).1 startRank endRank) ≠ [] →
        t ∈ jsSlice (getTokenAddressesSorted st now).1 startRank endRank →
        mapGet (buildAnalysisMap topTrending) (cycleKey t) = none →
        (t.address, (30 : ℚ)) ∈ (updateTokensByRankRange st now startRank endRank topTrending).2)
    ∧ (∀ (st : SystemState) (now : ℤ) (addr : String) (sa : AnalyzedToken) (td : TokenData),
        st.reachable = true → storeGet st.store addr = some td →
        storeGet ((updateTokenSocialScore st now addr 30 sa).1).store addr
          = some (fusedRecord td now 30 sa)
        ∧ (fusedRecord td now 30 sa).socialScore = some 30) := by
  refine ⟨?_, ?_, ?_⟩
  · intro m t h
    unfold scoreAndAnalysis
    rw [h]
  · intro st now startRank endRank topTrending t hT hmem hnone
    have hs : jsSlice (getTokenAddressesSorted st now).1 startRank endRank ≠ [] := by
      intro hl
      exact hT (by simp [cycleTickers, hl])
    have hsc : (scoreAndAnalysis (buildAnalysisMap topTrending) t).1 = 30 := by
      unfold scoreAndAnalysis
      rw [hnone]
    unfold updateTokensByRankRange
    rw [if_neg hs, if_neg hT, foldl_processToken_writes]
    refine List.mem_append.mpr (Or.inr (List.mem_map.mpr ⟨t, hmem, ?_⟩))
    rw [hsc]
  · intro st now addr sa td h1 h2
    constructor
    · have hst : ((updateTokenSocialScore st now addr 30 sa).1).store
          = storeSet st.store addr (fusedRecord td now 30 sa) := by
        unfold updateTokenSocialScore
        rw [h1]
        simp [h2]
      rw [hst]
      exact storeGet_storeSet_self _ _ _
    · rfl

/-- C8 witness: on the concrete store with an empty aggregation result, the
rank-0 token is refreshed with the fixed score 30. -/
theorem absent_ticker_default_refresh_witness :
    ("0xa", (30 : ℚ)) ∈ (updateTokensByRankRange exSt8 0 0 (some 20) []).2 :=
  absent_ticker_default_refresh.2.1 exSt8 0 0 (some 20) []
    { address := "0xa", name := "", symbol := "DOGE", finalScore := 66 }
    (by decide) (by decide) (by decide)

/-- C8 counterexample: a token absent from the aggregation result had stored
social score 90; after the cycle its stored social score is the fabricated
default 30. -/
theorem absent_ticker_overwrites_stored_score :
    ((storeGet exSt8.store "0xa").map TokenData.socialScore) = some (some 90)
    ∧ ((storeGet ((updateTokensByRankRange exSt8 0 0 (some 20) []).1).store "0xa").map
        TokenData.socialScore) = some (some 30) := by decide

end OffChain
